import Mathlib

set_option maxHeartbeats 1000000

/-!
Shallow embedding of the host-side RSA wrapper (crypto/host/rsa.c).

The OpenSSL backend is abstracted as a `Backend` record of pure functions;
allocation-style backend calls that can fail independently of their data
(BIO_new, BIO_write, EVP_PKEY_new, EVP_PKEY_assign_RSA, BIO_get_mem_ptr)
are given explicit Boolean success flags as extra arguments, one per call
site, mirroring the C code. Pointer arguments are modelled as `Option`
(`none` = NULL); the state behind a non-NULL key-handle pointer is the
value under `some`, and each operation returns the updated handle state
alongside its result code. Byte buffers are lists of naturals; a buffer
argument pairs contents with its declared size via the list length.
-/

/-- Result codes (OE_Result) as used by the RSA wrapper. -/
inductive OE_Result where
  | OK
  | INVALID_PARAMETER
  | BUFFER_TOO_SMALL
  | FAILURE
  | UNEXPECTED
deriving DecidableEq, Repr

/-- Hash-type tag (OE_HashType): the closed enumeration SHA-256 / SHA-512. -/
inductive OE_HashType where
  | SHA256
  | SHA512
deriving DecidableEq, Repr

/-- Magic tag marking an initialized key handle (OE_RSA_KEY_MAGIC). -/
def OE_RSA_KEY_MAGIC : Nat := 0x2a11ed055e91b281

/-- Key-handle contents (struct _OE_RSA_KEY_IMPL): a magic tag plus the
owned backend RSA object. A backend RSA object is identified by a natural
number (its key material); `none` models a NULL `RSA*` field. -/
structure OE_RSA_KEY_IMPL where
  magic : Nat
  rsa : Option Nat
deriving DecidableEq, Repr

/-- The all-zero handle state produced by clearing. -/
def emptyImpl : OE_RSA_KEY_IMPL := ⟨0, none⟩

/-- Embeds `_ClearImpl`: zero the fields behind a non-NULL pointer,
do nothing for NULL. -/
def ClearImpl (impl : Option OE_RSA_KEY_IMPL) : Option OE_RSA_KEY_IMPL :=
  impl.map (fun _ => emptyImpl)

/-- Embeds `_ValidImpl`: pointer non-NULL, magic matches, RSA object
present. -/
def ValidImpl : Option OE_RSA_KEY_IMPL → Bool
  | none => false
  | some s => s.magic == OE_RSA_KEY_MAGIC && s.rsa.isSome

/-- Embeds `_MapHashType`, mapping the tag to the OpenSSL NID values
(NID_sha256 = 672, NID_sha512 = 674); other inputs are unreachable. -/
def MapHashType : OE_HashType → Nat
  | OE_HashType.SHA256 => 672
  | OE_HashType.SHA512 => 674

/-- Modelled from the spec: `OE_CheckForNullTerminator` is declared in
`../util.h`, whose source is not part of this tree. Per the spec the buffer
must be non-empty and carry its single null terminator exactly at the last
byte; any other placement or absence is an error. Only the OK/non-OK
distinction is ever consumed by the callers in rsa.c. -/
def OE_CheckForNullTerminator (bytes : List Nat) : OE_Result :=
  if bytes.getLast? == some 0 && bytes.dropLast.all (fun b => b != 0) then
    OE_Result.OK
  else
    OE_Result.INVALID_PARAMETER

/-- Deterministic data-dependent behaviour of the OpenSSL backend. Fields
in order: `readPriv` (PEM_read_bio_RSAPrivateKey over the buffer bytes),
`readPubEnvelope` (PEM_read_bio_PUBKEY, producing an EVP_PKEY id),
`get1RSA` (EVP_PKEY_get1_RSA), `size` (RSA_size), `sign` (RSA_sign:
NID, key, digest bytes), `verify` (RSA_verify), `generate`
(RSA_generate_key: bits, exponent), `writePriv`
(PEM_write_bio_RSAPrivateKey: the PEM text bytes produced, without any
terminator), `writePubOf` (EVP_PKEY wrapping followed by
PEM_write_bio_PUBKEY for the given RSA object). -/
structure Backend where
  readPriv : List Nat → Option Nat
  readPubEnvelope : List Nat → Option Nat
  get1RSA : Nat → Option Nat
  size : Nat → Nat
  sign : Nat → Nat → List Nat → Option (List Nat)
  verify : Nat → Nat → List Nat → List Nat → Bool
  generate : Nat → Nat → Option Nat
  writePriv : Nat → Option (List Nat)
  writePubOf : Nat → Option (List Nat)

/-- Embeds `OE_RSAReadPrivateKeyFromPEM`. `pemData = none` models a NULL
buffer pointer; otherwise the list holds exactly `pemSize` bytes.
`bioNewOk` is the success of the BIO_new_mem_buf call. Returns the result
code and the new state of the (possibly NULL) key handle. -/
def OE_RSAReadPrivateKeyFromPEM (B : Backend) (pemData : Option (List Nat))
    (key : Option OE_RSA_KEY_IMPL) (bioNewOk : Bool) :
    OE_Result × Option OE_RSA_KEY_IMPL :=
  let impl := ClearImpl key
  match pemData with
  | none => (OE_Result.INVALID_PARAMETER, impl)
  | some bytes =>
    if bytes.length = 0 ∨ impl = none then (OE_Result.INVALID_PARAMETER, impl)
    else if OE_CheckForNullTerminator bytes ≠ OE_Result.OK then
      (OE_Result.INVALID_PARAMETER, impl)
    else if bioNewOk = false then (OE_Result.FAILURE, impl)
    else
      match B.readPriv bytes with
      | none => (OE_Result.FAILURE, impl)
      | some rsa => (OE_Result.OK, some ⟨OE_RSA_KEY_MAGIC, some rsa⟩)

/-- Embeds `OE_RSAReadPublicKeyFromPEM`. Note the faithful modelling of the
extraction step: when `EVP_PKEY_get1_RSA` fails the C code jumps to `done`
without assigning `result`, so the initial `OE_UNEXPECTED` is returned. -/
def OE_RSAReadPublicKeyFromPEM (B : Backend) (pemData : Option (List Nat))
    (key : Option OE_RSA_KEY_IMPL) (bioNewOk : Bool) :
    OE_Result × Option OE_RSA_KEY_IMPL :=
  let impl := ClearImpl key
  match pemData with
  | none => (OE_Result.INVALID_PARAMETER, impl)
  | some bytes =>
    if bytes.length = 0 ∨ impl = none then (OE_Result.INVALID_PARAMETER, impl)
    else if OE_CheckForNullTerminator bytes ≠ OE_Result.OK then
      (OE_Result.INVALID_PARAMETER, impl)
    else if bioNewOk = false then (OE_Result.FAILURE, impl)
    else
      match B.readPubEnvelope bytes with
      | none => (OE_Result.FAILURE, impl)
      | some pkey =>
        match B.get1RSA pkey with
        | none => (OE_Result.UNEXPECTED, impl)
        | some rsa => (OE_Result.OK, some ⟨OE_RSA_KEY_MAGIC, some rsa⟩)

/-- Embeds `OE_RSAFree`: reject anything not currently valid; otherwise
release the backend object and clear the handle. -/
def OE_RSAFree (key : Option OE_RSA_KEY_IMPL) :
    OE_Result × Option OE_RSA_KEY_IMPL :=
  if ValidImpl key then (OE_Result.OK, ClearImpl key)
  else (OE_Result.INVALID_PARAMETER, key)

/-- Embeds `OE_RSASign`. `hashData = none` / `signatureSize = none` model
NULL pointers; `signatureIsNull` models a NULL output buffer. Returns the
result code, the final value behind `signatureSize`, and the bytes written
into the signature buffer (`none` when nothing was written). -/
def OE_RSASign (B : Backend) (privateKey : Option OE_RSA_KEY_IMPL)
    (hashType : OE_HashType) (hashData : Option (List Nat))
    (signatureIsNull : Bool) (signatureSize : Option Nat) :
    OE_Result × Option Nat × Option (List Nat) :=
  let type := MapHashType hashType
  match hashData, signatureSize with
  | some hashBytes, some cap =>
    if ValidImpl privateKey = false ∨ hashBytes.length = 0 then
      (OE_Result.INVALID_PARAMETER, some cap, none)
    else if signatureIsNull = true ∧ cap ≠ 0 then
      (OE_Result.INVALID_PARAMETER, some cap, none)
    else
      let rsa := (privateKey.bind (fun s => s.rsa)).getD 0
      let size := B.size rsa
      if cap < size then (OE_Result.BUFFER_TOO_SMALL, some size, none)
      else
        match B.sign type rsa hashBytes with
        | none => (OE_Result.FAILURE, some size, none)
        | some sigBytes =>
          if sigBytes.length ≠ size then
            (OE_Result.UNEXPECTED, some size, some sigBytes)
          else (OE_Result.OK, some size, some sigBytes)
  | _, _ => (OE_Result.INVALID_PARAMETER, signatureSize, none)

/-- Embeds `OE_RSAVerify`. The signature buffer carries its declared size
as the list length. -/
def OE_RSAVerify (B : Backend) (publicKey : Option OE_RSA_KEY_IMPL)
    (hashType : OE_HashType) (hashData : Option (List Nat))
    (signature : Option (List Nat)) : OE_Result :=
  let type := MapHashType hashType
  match hashData, signature with
  | some hashBytes, some sigBytes =>
    if ValidImpl publicKey = false ∨ hashBytes.length = 0 ∨
        sigBytes.length = 0 then
      OE_Result.INVALID_PARAMETER
    else if B.verify type ((publicKey.bind (fun s => s.rsa)).getD 0)
        hashBytes sigBytes then
      OE_Result.OK
    else OE_Result.FAILURE
  | _, _ => OE_Result.INVALID_PARAMETER

/-- Embeds `OE_RSAWritePrivateKeyToPEM`. The BIO accumulates the PEM text
followed by one null terminator, so `mem->length` is the PEM text length
plus one; that whole buffer (terminator included) is what gets compared
against the caller capacity, copied out, and reported in `*size`. -/
def OE_RSAWritePrivateKeyToPEM (B : Backend) (key : Option OE_RSA_KEY_IMPL)
    (dataIsNull : Bool) (size : Option Nat)
    (bioNewOk : Bool) (bioWriteOk : Bool) (getMemOk : Bool) :
    OE_Result × Option Nat × Option (List Nat) :=
  match size with
  | none => (OE_Result.INVALID_PARAMETER, none, none)
  | some cap =>
    if ValidImpl key = false then (OE_Result.INVALID_PARAMETER, some cap, none)
    else if dataIsNull = true ∧ cap ≠ 0 then
      (OE_Result.INVALID_PARAMETER, some cap, none)
    else if bioNewOk = false then (OE_Result.FAILURE, some cap, none)
    else
      match B.writePriv ((key.bind (fun s => s.rsa)).getD 0) with
      | none => (OE_Result.FAILURE, some cap, none)
      | some pem =>
        if bioWriteOk = false then (OE_Result.FAILURE, some cap, none)
        else if getMemOk = false then (OE_Result.FAILURE, some cap, none)
        else
          let memLen := pem.length + 1
          if cap < memLen then
            (OE_Result.BUFFER_TOO_SMALL, some memLen, none)
          else (OE_Result.OK, some memLen, some (pem ++ [0]))

/-- Embeds `OE_RSAWritePublicKeyToPEM`: as the private variant, with the
extra EVP_PKEY_new / EVP_PKEY_assign_RSA steps before serialization. -/
def OE_RSAWritePublicKeyToPEM (B : Backend) (key : Option OE_RSA_KEY_IMPL)
    (dataIsNull : Bool) (size : Option Nat)
    (bioNewOk : Bool) (pkeyNewOk : Bool) (assignOk : Bool)
    (bioWriteOk : Bool) (getMemOk : Bool) :
    OE_Result × Option Nat × Option (List Nat) :=
  match size with
  | none => (OE_Result.INVALID_PARAMETER, none, none)
  | some cap =>
    if ValidImpl key = false then (OE_Result.INVALID_PARAMETER, some cap, none)
    else if dataIsNull = true ∧ cap ≠ 0 then
      (OE_Result.INVALID_PARAMETER, some cap, none)
    else if bioNewOk = false then (OE_Result.FAILURE, some cap, none)
    else if pkeyNewOk = false then (OE_Result.FAILURE, some cap, none)
    else if assignOk = false then (OE_Result.FAILURE, some cap, none)
    else
      match B.writePubOf ((key.bind (fun s => s.rsa)).getD 0) with
      | none => (OE_Result.FAILURE, some cap, none)
      | some pem =>
        if bioWriteOk = false then (OE_Result.FAILURE, some cap, none)
        else if getMemOk = false then (OE_Result.FAILURE, some cap, none)
        else
          let memLen := pem.length + 1
          if cap < memLen then
            (OE_Result.BUFFER_TOO_SMALL, some memLen, none)
          else (OE_Result.OK, some memLen, some (pem ++ [0]))

/-- Success flags for the allocation-style backend calls made by
`OE_RSAGenerate`, one per call site, in source order: BIO_new and
BIO_write plus BIO_get_mem_ptr of the private-key block, BIO_new_mem_buf
inside the nested private read, then BIO_new, EVP_PKEY_new,
EVP_PKEY_assign_RSA and BIO_write of the public-key block, and
BIO_new_mem_buf inside the nested public read. -/
structure GenEnv where
  bioNew1Ok : Bool
  bioWrite1Ok : Bool
  getMem1Ok : Bool
  readBio1Ok : Bool
  bioNew2Ok : Bool
  pkeyNewOk : Bool
  assignOk : Bool
  bioWrite2Ok : Bool
  readBio2Ok : Bool
deriving DecidableEq, Repr

/-- Platform limit INT_MAX (32-bit int). -/
def INT_MAX : Nat := 2147483647

/-- Platform limit ULONG_MAX (LP64 host: 64-bit unsigned long). -/
def ULONG_MAX : Nat := 18446744073709551615

/-- Body of `OE_RSAGenerate` up to (but excluding) the rollback performed
at the `done` label: clears both handles, validates, generates, serializes
the private key to PEM plus terminator and re-reads it through
`OE_RSAReadPrivateKeyFromPEM`, then wraps and serializes the public key
and re-reads it through `OE_RSAReadPublicKeyFromPEM`. -/
def generateBody (B : Backend) (bits exponent : Nat)
    (privateKey publicKey : Option OE_RSA_KEY_IMPL) (env : GenEnv) :
    OE_Result × Option OE_RSA_KEY_IMPL × Option OE_RSA_KEY_IMPL :=
  if ClearImpl privateKey = none ∨ ClearImpl publicKey = none then
    (OE_Result.INVALID_PARAMETER, ClearImpl privateKey,
      ClearImpl publicKey)
  else if bits > INT_MAX then
    (OE_Result.INVALID_PARAMETER, ClearImpl privateKey,
      ClearImpl publicKey)
  else if exponent > ULONG_MAX then
    (OE_Result.INVALID_PARAMETER, ClearImpl privateKey,
      ClearImpl publicKey)
  else
    match B.generate bits exponent with
    | none =>
      (OE_Result.FAILURE, ClearImpl privateKey, ClearImpl publicKey)
    | some rsa =>
      if env.bioNew1Ok = false then
        (OE_Result.FAILURE, ClearImpl privateKey, ClearImpl publicKey)
      else
        match B.writePriv rsa with
        | none =>
          (OE_Result.FAILURE, ClearImpl privateKey, ClearImpl publicKey)
        | some pem1 =>
          if env.bioWrite1Ok = false then
            (OE_Result.FAILURE, ClearImpl privateKey,
              ClearImpl publicKey)
          else if env.getMem1Ok = false then
            (OE_Result.FAILURE, ClearImpl privateKey,
              ClearImpl publicKey)
          else if (OE_RSAReadPrivateKeyFromPEM B (some (pem1 ++ [0]))
              (ClearImpl privateKey) env.readBio1Ok).1 ≠ OE_Result.OK then
            (OE_Result.FAILURE,
              (OE_RSAReadPrivateKeyFromPEM B (some (pem1 ++ [0]))
                (ClearImpl privateKey) env.readBio1Ok).2,
              ClearImpl publicKey)
          else if env.bioNew2Ok = false then
            (OE_Result.FAILURE,
              (OE_RSAReadPrivateKeyFromPEM B (some (pem1 ++ [0]))
                (ClearImpl privateKey) env.readBio1Ok).2,
              ClearImpl publicKey)
          else if env.pkeyNewOk = false then
            (OE_Result.FAILURE,
              (OE_RSAReadPrivateKeyFromPEM B (some (pem1 ++ [0]))
                (ClearImpl privateKey) env.readBio1Ok).2,
              ClearImpl publicKey)
          else if env.assignOk = false then
            (OE_Result.FAILURE,
              (OE_RSAReadPrivateKeyFromPEM B (some (pem1 ++ [0]))
                (ClearImpl privateKey) env.readBio1Ok).2,
              ClearImpl publicKey)
          else
            match B.writePubOf rsa with
            | none =>
              (OE_Result.FAILURE,
                (OE_RSAReadPrivateKeyFromPEM B (some (pem1 ++ [0]))
                  (ClearImpl privateKey) env.readBio1Ok).2,
                ClearImpl publicKey)
            | some pem2 =>
              if env.bioWrite2Ok = false then
                (OE_Result.FAILURE,
                  (OE_RSAReadPrivateKeyFromPEM B (some (pem1 ++ [0]))
                    (ClearImpl privateKey) env.readBio1Ok).2,
                  ClearImpl publicKey)
              else if (OE_RSAReadPublicKeyFromPEM B (some (pem2 ++ [0]))
                  (ClearImpl publicKey) env.readBio2Ok).1 ≠
                    OE_Result.OK then
                (OE_Result.FAILURE,
                  (OE_RSAReadPrivateKeyFromPEM B (some (pem1 ++ [0]))
                    (ClearImpl privateKey) env.readBio1Ok).2,
                  (OE_RSAReadPublicKeyFromPEM B (some (pem2 ++ [0]))
                    (ClearImpl publicKey) env.readBio2Ok).2)
              else
                (OE_Result.OK,
                  (OE_RSAReadPrivateKeyFromPEM B (some (pem1 ++ [0]))
                    (ClearImpl privateKey) env.readBio1Ok).2,
                  (OE_RSAReadPublicKeyFromPEM B (some (pem2 ++ [0]))
                    (ClearImpl publicKey) env.readBio2Ok).2)

/-- Rollback step of the `done` label in `OE_RSAGenerate`: a handle left
valid is freed (hence cleared); anything else is untouched. -/
def freeIfValid (x : Option OE_RSA_KEY_IMPL) : Option OE_RSA_KEY_IMPL :=
  if ValidImpl x then ClearImpl x else x

/-- Embeds `OE_RSAGenerate`: the body followed by the `done`-label
rollback, which on any non-OK result frees whichever output handles are
still valid. -/
def OE_RSAGenerate (B : Backend) (bits exponent : Nat)
    (privateKey publicKey : Option OE_RSA_KEY_IMPL) (env : GenEnv) :
    OE_Result × Option OE_RSA_KEY_IMPL × Option OE_RSA_KEY_IMPL :=
  let t := generateBody B bits exponent privateKey publicKey env
  if t.1 = OE_Result.OK then t
  else (t.1, freeIfValid t.2.1, freeIfValid t.2.2)

/-- Toy private-key PEM parser for concrete witnesses: a two-byte buffer
whose first byte is a positive encoding of key `b - 1` and whose second
byte is the terminator. -/
def toyReadPriv : List Nat → Option Nat
  | [b, 0] => if b = 0 then none else some (b - 1)
  | _ => none

/-- Toy public-envelope PEM parser for concrete witnesses: same shape,
yielding envelope id `b`. -/
def toyReadPub : List Nat → Option Nat
  | [b, 0] => if b = 0 then none else some b
  | _ => none

/-- Toy backend used by closed witnesses: keys serialize to the single
byte `k + 1`, the envelope id of key `k` is `k + 1`, all keys have
modulus size 4, and signatures are the fixed 4-byte string `[1,1,1,1]`. -/
def toyBackend : Backend :=
  ⟨toyReadPriv, toyReadPub,
   fun pk => if pk = 0 then none else some (pk - 1),
   fun _ => 4,
   fun _ _ _ => some [1, 1, 1, 1],
   fun _ _ _ sig => sig == [1, 1, 1, 1],
   fun _ _ => some 5,
   fun k => some [k + 1],
   fun k => some [k + 1]⟩

/-- All allocation-style calls in `OE_RSAGenerate` succeed. -/
def allOkEnv : GenEnv := ⟨true, true, true, true, true, true, true, true, true⟩

/-- Variant of the toy backend whose RSA_sign always fails. -/
def failSignBackend : Backend :=
  ⟨toyReadPriv, toyReadPub,
   fun pk => if pk = 0 then none else some (pk - 1),
   fun _ => 4,
   fun _ _ _ => none,
   fun _ _ _ sig => sig == [1, 1, 1, 1],
   fun _ _ => some 5,
   fun k => some [k + 1],
   fun k => some [k + 1]⟩

/-- Variant of the toy backend whose public-key PEM serialization fails,
forcing `OE_RSAGenerate` to fail after the private handle was populated. -/
def failPubWriteBackend : Backend :=
  ⟨toyReadPriv, toyReadPub,
   fun pk => if pk = 0 then none else some (pk - 1),
   fun _ => 4,
   fun _ _ _ => some [1, 1, 1, 1],
   fun _ _ _ sig => sig == [1, 1, 1, 1],
   fun _ _ => some 5,
   fun k => some [k + 1],
   fun _ => none⟩

/-- Variant of the toy backend where the public-key envelope parses but
the RSA-specific extraction (EVP_PKEY_get1_RSA) fails, as happens for a
non-RSA public key. -/
def nonRsaEnvelopeBackend : Backend :=
  ⟨toyReadPriv, toyReadPub,
   fun _ => none,
   fun _ => 4,
   fun _ _ _ => some [1, 1, 1, 1],
   fun _ _ _ sig => sig == [1, 1, 1, 1],
   fun _ _ => some 5,
   fun k => some [k + 1],
   fun k => some [k + 1]⟩

/-!
Theorems. Claim identifiers refer to the frozen claim list; helper lemmas
shared between proofs come first.
-/

/-- Helper: a handle carrying the magic and an RSA object is valid. -/
theorem validImpl_mk (k : Nat) :
    ValidImpl (some ⟨OE_RSA_KEY_MAGIC, some k⟩) = true := by
  simp [ValidImpl]

/-- Helper: the cleared handle is not valid. -/
theorem validImpl_empty : ValidImpl (some emptyImpl) = false := by
  decide

/-- C1 counterexample: with the toy backend the visible private-key PEM
text of key 5 is `[6]`, of length 1, yet a successful
`OE_RSAWritePrivateKeyToPEM` call reports `*size = 2`: the reported size
does not exclude the internally appended null terminator. -/
theorem write_pem_size_excludes_terminator_cex :
    toyBackend.writePriv 5 = some [6] ∧
    (OE_RSAWritePrivateKeyToPEM toyBackend (some ⟨OE_RSA_KEY_MAGIC, some 5⟩)
      false (some 10) true true true).1 = OE_Result.OK ∧
    (OE_RSAWritePrivateKeyToPEM toyBackend (some ⟨OE_RSA_KEY_MAGIC, some 5⟩)
      false (some 10) true true true).2.1 ≠ some 1 := by
  decide

/-- C1 (amended): for every valid key handle, when serialization succeeds
both `OE_RSAWritePrivateKeyToPEM` and `OE_RSAWritePublicKeyToPEM` report
in `*size` the visible PEM text length plus one for the internally
appended null terminator, on the success path (where the terminator is
also copied into the caller buffer) as well as on the BufferTooSmall path
(where nothing is copied). -/
theorem write_pem_size_includes_terminator (B : Backend)
    (s : OE_RSA_KEY_IMPL) (cap : Nat) (pem1 pem2 : List Nat)
    (hv : ValidImpl (some s) = true)
    (h1 : B.writePriv (s.rsa.getD 0) = some pem1)
    (h2 : B.writePubOf (s.rsa.getD 0) = some pem2) :
    (pem1.length + 1 ≤ cap →
      OE_RSAWritePrivateKeyToPEM B (some s) false (some cap) true true true =
        (OE_Result.OK, some (pem1.length + 1), some (pem1 ++ [0]))) ∧
    (cap < pem1.length + 1 →
      OE_RSAWritePrivateKeyToPEM B (some s) false (some cap) true true true =
        (OE_Result.BUFFER_TOO_SMALL, some (pem1.length + 1), none)) ∧
    (pem2.length + 1 ≤ cap →
      OE_RSAWritePublicKeyToPEM B (some s) false (some cap)
          true true true true true =
        (OE_Result.OK, some (pem2.length + 1), some (pem2 ++ [0]))) ∧
    (cap < pem2.length + 1 →
      OE_RSAWritePublicKeyToPEM B (some s) false (some cap)
          true true true true true =
        (OE_Result.BUFFER_TOO_SMALL, some (pem2.length + 1), none)) := by
  refine ⟨fun hc => ?_, fun hc => ?_, fun hc => ?_, fun hc => ?_⟩ <;>
    simp [OE_RSAWritePrivateKeyToPEM, OE_RSAWritePublicKeyToPEM, hv, h1, h2] <;>
    omega

/-- Witness for C1 (amended) at the toy backend. -/
theorem write_pem_size_includes_terminator_witness :
    OE_RSAWritePrivateKeyToPEM toyBackend (some ⟨OE_RSA_KEY_MAGIC, some 5⟩)
      false (some 2) true true true = (OE_Result.OK, some 2, some [6, 0]) ∧
    OE_RSAWritePublicKeyToPEM toyBackend (some ⟨OE_RSA_KEY_MAGIC, some 5⟩)
      false (some 1) true true true true true =
      (OE_Result.BUFFER_TOO_SMALL, some 2, none) :=
  ⟨(write_pem_size_includes_terminator toyBackend ⟨OE_RSA_KEY_MAGIC, some 5⟩
      2 [6] [6] (by decide) (by decide) (by decide)).1 (by decide),
   (write_pem_size_includes_terminator toyBackend ⟨OE_RSA_KEY_MAGIC, some 5⟩
      1 [6] [6] (by decide) (by decide) (by decide)).2.2.2 (by decide)⟩

/-- C7: `OE_RSAFree` returns Ok and resets the handle when it is valid,
returns InvalidParameter and changes nothing otherwise; hence freeing
twice gives Ok then InvalidParameter with no further change. -/
theorem free_contract (kp : Option OE_RSA_KEY_IMPL) :
    (ValidImpl kp = true →
      OE_RSAFree kp = (OE_Result.OK, ClearImpl kp) ∧
      (OE_RSAFree (OE_RSAFree kp).2).1 = OE_Result.INVALID_PARAMETER ∧
      (OE_RSAFree (OE_RSAFree kp).2).2 = (OE_RSAFree kp).2) ∧
    (ValidImpl kp = false →
      OE_RSAFree kp = (OE_Result.INVALID_PARAMETER, kp)) := by
  constructor
  · intro hv
    cases kp with
    | none => simp [ValidImpl] at hv
    | some s =>
      simp [OE_RSAFree, hv, ClearImpl, validImpl_empty]
  · intro hv
    simp [OE_RSAFree, hv]

/-- Witness for C7 at a concrete valid handle. -/
theorem free_contract_witness :
    OE_RSAFree (some ⟨OE_RSA_KEY_MAGIC, some 5⟩) =
      (OE_Result.OK, some emptyImpl) ∧
    (OE_RSAFree (OE_RSAFree (some ⟨OE_RSA_KEY_MAGIC, some 5⟩)).2).1 =
      OE_Result.INVALID_PARAMETER :=
  ⟨((free_contract (some ⟨OE_RSA_KEY_MAGIC, some 5⟩)).1 (by decide)).1,
   ((free_contract (some ⟨OE_RSA_KEY_MAGIC, some 5⟩)).1 (by decide)).2.1⟩

/-- C8: when the backend sign succeeds but produces a length other than
the key's modulus size, `OE_RSASign` returns Unexpected; when the backend
produces modulus-sized signatures the call succeeds and reports exactly
the modulus size. -/
theorem sign_siglen_consistency (B : Backend) (s : OE_RSA_KEY_IMPL)
    (ht : OE_HashType) (digest sigBytes : List Nat) (cap : Nat)
    (hv : ValidImpl (some s) = true) (hd : digest.length ≠ 0)
    (hcap : B.size (s.rsa.getD 0) ≤ cap)
    (hsig : B.sign (MapHashType ht) (s.rsa.getD 0) digest = some sigBytes) :
    (sigBytes.length ≠ B.size (s.rsa.getD 0) →
      OE_RSASign B (some s) ht (some digest) false (some cap) =
        (OE_Result.UNEXPECTED, some (B.size (s.rsa.getD 0)), some sigBytes)) ∧
    (sigBytes.length = B.size (s.rsa.getD 0) →
      OE_RSASign B (some s) ht (some digest) false (some cap) =
        (OE_Result.OK, some (B.size (s.rsa.getD 0)), some sigBytes)) := by
  constructor <;> intro hl <;>
    simp [OE_RSASign, hv, hd, hsig, hl, Nat.not_lt.mpr hcap]

/-- Witness for C8 at the toy backend (modulus-sized signature). -/
theorem sign_siglen_consistency_witness :
    OE_RSASign toyBackend (some ⟨OE_RSA_KEY_MAGIC, some 5⟩)
      OE_HashType.SHA256 (some [9]) false (some 4) =
      (OE_Result.OK, some 4, some [1, 1, 1, 1]) :=
  (sign_siglen_consistency toyBackend ⟨OE_RSA_KEY_MAGIC, some 5⟩
    OE_HashType.SHA256 [9] [1, 1, 1, 1] 4 (by decide) (by decide)
    (by decide) (by decide)).2 (by decide)

/-- C9: with a valid key, a non-empty digest and sufficient declared
capacity, `OE_RSASign` stores the modulus size into `*signatureSize`
before invoking the backend sign, so the size output is mutated to the
modulus size even when the backend sign fails and the call returns
Failure. -/
theorem sign_size_written_before_backend_failure (B : Backend)
    (s : OE_RSA_KEY_IMPL) (ht : OE_HashType) (digest : List Nat) (cap : Nat)
    (hv : ValidImpl (some s) = true) (hd : digest.length ≠ 0)
    (hcap : B.size (s.rsa.getD 0) ≤ cap)
    (hfail : B.sign (MapHashType ht) (s.rsa.getD 0) digest = none) :
    OE_RSASign B (some s) ht (some digest) false (some cap) =
      (OE_Result.FAILURE, some (B.size (s.rsa.getD 0)), none) := by
  simp [OE_RSASign, hv, hd, hfail, Nat.not_lt.mpr hcap]

/-- Witness for C9 at the failing-sign backend. -/
theorem sign_size_written_before_backend_failure_witness :
    OE_RSASign failSignBackend (some ⟨OE_RSA_KEY_MAGIC, some 5⟩)
      OE_HashType.SHA256 (some [9]) false (some 4) =
      (OE_Result.FAILURE, some 4, none) :=
  sign_size_written_before_backend_failure failSignBackend
    ⟨OE_RSA_KEY_MAGIC, some 5⟩ OE_HashType.SHA256 [9] 4 (by decide)
    (by decide) (by decide) (by decide)

/-- Helper: a buffer accepted by the terminator check is non-empty. -/
theorem checkNullTerminator_ok_nonempty (bytes : List Nat)
    (h : OE_CheckForNullTerminator bytes = OE_Result.OK) :
    bytes.length ≠ 0 := by
  intro hlen
  rw [List.length_eq_zero] at hlen
  subst hlen
  simp [OE_CheckForNullTerminator] at h

/-- C3: two-pass sizing law for `OE_RSASign`,
`OE_RSAWritePrivateKeyToPEM` and `OE_RSAWritePublicKeyToPEM`: a query
with a null buffer and declared size zero yields BufferTooSmall and a
positive required size; calling again with exactly that size succeeds and
leaves the declared size unchanged; one byte less yields BufferTooSmall
with nothing written. -/
theorem two_pass_sizing (B : Backend) (s : OE_RSA_KEY_IMPL)
    (ht : OE_HashType) (digest pem1 pem2 sigBytes : List Nat)
    (hv : ValidImpl (some s) = true) (hd : digest.length ≠ 0)
    (hsz : 0 < B.size (s.rsa.getD 0))
    (hsig : B.sign (MapHashType ht) (s.rsa.getD 0) digest = some sigBytes)
    (hslen : sigBytes.length = B.size (s.rsa.getD 0))
    (hw1 : B.writePriv (s.rsa.getD 0) = some pem1)
    (hw2 : B.writePubOf (s.rsa.getD 0) = some pem2) :
    (OE_RSASign B (some s) ht (some digest) true (some 0) =
       (OE_Result.BUFFER_TOO_SMALL, some (B.size (s.rsa.getD 0)), none) ∧
     0 < B.size (s.rsa.getD 0)) ∧
    (OE_RSASign B (some s) ht (some digest) false
        (some (B.size (s.rsa.getD 0))) =
       (OE_Result.OK, some (B.size (s.rsa.getD 0)), some sigBytes)) ∧
    (OE_RSASign B (some s) ht (some digest) false
        (some (B.size (s.rsa.getD 0) - 1)) =
       (OE_Result.BUFFER_TOO_SMALL, some (B.size (s.rsa.getD 0)), none)) ∧
    (OE_RSAWritePrivateKeyToPEM B (some s) true (some 0) true true true =
       (OE_Result.BUFFER_TOO_SMALL, some (pem1.length + 1), none) ∧
     0 < pem1.length + 1) ∧
    (OE_RSAWritePrivateKeyToPEM B (some s) false (some (pem1.length + 1))
        true true true =
       (OE_Result.OK, some (pem1.length + 1), some (pem1 ++ [0]))) ∧
    (OE_RSAWritePrivateKeyToPEM B (some s) false (some pem1.length)
        true true true =
       (OE_Result.BUFFER_TOO_SMALL, some (pem1.length + 1), none)) ∧
    (OE_RSAWritePublicKeyToPEM B (some s) true (some 0)
        true true true true true =
       (OE_Result.BUFFER_TOO_SMALL, some (pem2.length + 1), none) ∧
     0 < pem2.length + 1) ∧
    (OE_RSAWritePublicKeyToPEM B (some s) false (some (pem2.length + 1))
        true true true true true =
       (OE_Result.OK, some (pem2.length + 1), some (pem2 ++ [0]))) ∧
    (OE_RSAWritePublicKeyToPEM B (some s) false (some pem2.length)
        true true true true true =
       (OE_Result.BUFFER_TOO_SMALL, some (pem2.length + 1), none)) := by
  have hlt1 : ¬ (B.size (s.rsa.getD 0) < B.size (s.rsa.getD 0)) := by omega
  have hlt2 : B.size (s.rsa.getD 0) - 1 < B.size (s.rsa.getD 0) := by omega
  refine ⟨⟨?_, hsz⟩, ?_, ?_, ⟨?_, by omega⟩, ?_, ?_, ⟨?_, by omega⟩, ?_, ?_⟩
  · simp [OE_RSASign, hv, hd, hsz]
  · simp [OE_RSASign, hv, hd, hsig, hslen, hlt1]
  · simp [OE_RSASign, hv, hd, hlt2]
  · simp [OE_RSAWritePrivateKeyToPEM, hv, hw1, Nat.succ_pos]
  · simp [OE_RSAWritePrivateKeyToPEM, hv, hw1]
  · simp [OE_RSAWritePrivateKeyToPEM, hv, hw1, Nat.lt_succ_self]
  · simp [OE_RSAWritePublicKeyToPEM, hv, hw2, Nat.succ_pos]
  · simp [OE_RSAWritePublicKeyToPEM, hv, hw2]
  · simp [OE_RSAWritePublicKeyToPEM, hv, hw2, Nat.lt_succ_self]

/-- Witness for C3 at the toy backend. -/
theorem two_pass_sizing_witness :
    OE_RSASign toyBackend (some ⟨OE_RSA_KEY_MAGIC, some 5⟩)
      OE_HashType.SHA256 (some [9]) true (some 0) =
      (OE_Result.BUFFER_TOO_SMALL, some 4, none) ∧
    OE_RSAWritePrivateKeyToPEM toyBackend (some ⟨OE_RSA_KEY_MAGIC, some 5⟩)
      false (some 1) true true true =
      (OE_Result.BUFFER_TOO_SMALL, some 2, none) := by
  have h := two_pass_sizing toyBackend ⟨OE_RSA_KEY_MAGIC, some 5⟩
    OE_HashType.SHA256 [9] [6] [6] [1, 1, 1, 1] (by decide) (by decide)
    (by decide) (by decide) (by decide) (by decide) (by decide)
  exact ⟨h.1.1, h.2.2.2.2.2.1⟩

/-- C5: the PEM read operations return InvalidParameter on a NULL buffer,
an empty buffer, or a buffer rejected by the null-terminator check; when
validation passes but the backend parse fails they return Failure with
the key left empty; on a successful parse they populate the key as
valid. -/
theorem read_pem_validation (B : Backend) (s : OE_RSA_KEY_IMPL)
    (bytes : List Nat) :
    ((OE_RSAReadPrivateKeyFromPEM B none (some s) true).1 =
      OE_Result.INVALID_PARAMETER) ∧
    ((OE_RSAReadPrivateKeyFromPEM B (some []) (some s) true).1 =
      OE_Result.INVALID_PARAMETER) ∧
    (OE_CheckForNullTerminator bytes ≠ OE_Result.OK →
      (OE_RSAReadPrivateKeyFromPEM B (some bytes) (some s) true).1 =
        OE_Result.INVALID_PARAMETER) ∧
    (OE_CheckForNullTerminator bytes = OE_Result.OK →
      B.readPriv bytes = none →
      OE_RSAReadPrivateKeyFromPEM B (some bytes) (some s) true =
        (OE_Result.FAILURE, some emptyImpl)) ∧
    (∀ k, OE_CheckForNullTerminator bytes = OE_Result.OK →
      B.readPriv bytes = some k →
      OE_RSAReadPrivateKeyFromPEM B (some bytes) (some s) true =
        (OE_Result.OK, some ⟨OE_RSA_KEY_MAGIC, some k⟩) ∧
      ValidImpl (some (⟨OE_RSA_KEY_MAGIC, some k⟩ : OE_RSA_KEY_IMPL)) =
        true) ∧
    ((OE_RSAReadPublicKeyFromPEM B none (some s) true).1 =
      OE_Result.INVALID_PARAMETER) ∧
    ((OE_RSAReadPublicKeyFromPEM B (some []) (some s) true).1 =
      OE_Result.INVALID_PARAMETER) ∧
    (OE_CheckForNullTerminator bytes ≠ OE_Result.OK →
      (OE_RSAReadPublicKeyFromPEM B (some bytes) (some s) true).1 =
        OE_Result.INVALID_PARAMETER) ∧
    (OE_CheckForNullTerminator bytes = OE_Result.OK →
      B.readPubEnvelope bytes = none →
      OE_RSAReadPublicKeyFromPEM B (some bytes) (some s) true =
        (OE_Result.FAILURE, some emptyImpl)) ∧
    (∀ pk k, OE_CheckForNullTerminator bytes = OE_Result.OK →
      B.readPubEnvelope bytes = some pk → B.get1RSA pk = some k →
      OE_RSAReadPublicKeyFromPEM B (some bytes) (some s) true =
        (OE_Result.OK, some ⟨OE_RSA_KEY_MAGIC, some k⟩) ∧
      ValidImpl (some (⟨OE_RSA_KEY_MAGIC, some k⟩ : OE_RSA_KEY_IMPL)) =
        true) := by
  refine ⟨?_, ?_, fun hterm => ?_, fun hok hp => ?_, fun k hok hp => ?_,
    ?_, ?_, fun hterm => ?_, fun hok hp => ?_, fun pk k hok hp hq => ?_⟩
  · simp [OE_RSAReadPrivateKeyFromPEM, ClearImpl]
  · simp [OE_RSAReadPrivateKeyFromPEM, ClearImpl]
  · by_cases hlen : bytes.length = 0
    · simp [OE_RSAReadPrivateKeyFromPEM, ClearImpl, hlen]
    · simp [OE_RSAReadPrivateKeyFromPEM, ClearImpl, hlen, hterm]
  · have hne := checkNullTerminator_ok_nonempty bytes hok
    simp [OE_RSAReadPrivateKeyFromPEM, ClearImpl, hne, hok, hp]
  · have hne := checkNullTerminator_ok_nonempty bytes hok
    exact ⟨by simp [OE_RSAReadPrivateKeyFromPEM, ClearImpl, hne, hok, hp],
      validImpl_mk k⟩
  · simp [OE_RSAReadPublicKeyFromPEM, ClearImpl]
  · simp [OE_RSAReadPublicKeyFromPEM, ClearImpl]
  · by_cases hlen : bytes.length = 0
    · simp [OE_RSAReadPublicKeyFromPEM, ClearImpl, hlen]
    · simp [OE_RSAReadPublicKeyFromPEM, ClearImpl, hlen, hterm]
  · have hne := checkNullTerminator_ok_nonempty bytes hok
    simp [OE_RSAReadPublicKeyFromPEM, ClearImpl, hne, hok, hp]
  · have hne := checkNullTerminator_ok_nonempty bytes hok
    exact ⟨by simp [OE_RSAReadPublicKeyFromPEM, ClearImpl, hne, hok, hp, hq],
      validImpl_mk k⟩

/-- Witness for C5: a concrete accepting run and a concrete run rejected
for a misplaced terminator. -/
theorem read_pem_validation_witness :
    OE_RSAReadPrivateKeyFromPEM toyBackend (some [6, 0]) (some emptyImpl)
      true = (OE_Result.OK, some ⟨OE_RSA_KEY_MAGIC, some 5⟩) ∧
    (OE_RSAReadPrivateKeyFromPEM toyBackend (some [6, 5]) (some emptyImpl)
      true).1 = OE_Result.INVALID_PARAMETER := by
  have h := read_pem_validation toyBackend emptyImpl [6, 0]
  have h2 := read_pem_validation toyBackend emptyImpl [6, 5]
  exact ⟨(h.2.2.2.2.1 5 (by decide) (by decide)).1, h2.2.2.1 (by decide)⟩

/-- C6 (code-bug exhibit): when the public-key envelope parses but the
RSA-specific extraction (EVP_PKEY_get1_RSA) fails,
`OE_RSAReadPublicKeyFromPEM` returns Unexpected instead of the uniform
Failure: the extraction-failure branch jumps to `done` without assigning
`result`, leaking the initial Unexpected sentinel. -/
theorem read_public_extract_failure_returns_unexpected :
    nonRsaEnvelopeBackend.readPubEnvelope [6, 0] = some 6 ∧
    nonRsaEnvelopeBackend.get1RSA 6 = none ∧
    OE_RSAReadPublicKeyFromPEM nonRsaEnvelopeBackend (some [6, 0])
      (some emptyImpl) true = (OE_Result.UNEXPECTED, some emptyImpl) := by
  decide

/-- Helper: after any private read on a non-NULL handle, the handle is
populated with the magic exactly when the result is OK, and cleared
otherwise. -/
theorem readPriv_handle_state (B : Backend) (pd : Option (List Nat))
    (s : OE_RSA_KEY_IMPL) (ok : Bool) :
    ((OE_RSAReadPrivateKeyFromPEM B pd (some s) ok).1 = OE_Result.OK ∧
      ∃ k, (OE_RSAReadPrivateKeyFromPEM B pd (some s) ok).2 =
        some ⟨OE_RSA_KEY_MAGIC, some k⟩) ∨
    ((OE_RSAReadPrivateKeyFromPEM B pd (some s) ok).1 ≠ OE_Result.OK ∧
      (OE_RSAReadPrivateKeyFromPEM B pd (some s) ok).2 = some emptyImpl) := by
  cases pd with
  | none => right; simp [OE_RSAReadPrivateKeyFromPEM, ClearImpl]
  | some bytes =>
    by_cases hlen : bytes.length = 0
    · right; simp [OE_RSAReadPrivateKeyFromPEM, ClearImpl, hlen]
    · by_cases hterm : OE_CheckForNullTerminator bytes = OE_Result.OK
      · cases ok with
        | false =>
          right
          simp [OE_RSAReadPrivateKeyFromPEM, ClearImpl, hlen, hterm]
        | true =>
          cases hp : B.readPriv bytes with
          | none =>
            right
            simp [OE_RSAReadPrivateKeyFromPEM, ClearImpl, hlen, hterm, hp]
          | some k =>
            left
            refine ⟨?_, k, ?_⟩ <;>
              simp [OE_RSAReadPrivateKeyFromPEM, ClearImpl, hlen, hterm, hp]
      · right; simp [OE_RSAReadPrivateKeyFromPEM, ClearImpl, hlen, hterm]

/-- Helper: the same handle-state dichotomy for the public read. -/
theorem readPub_handle_state (B : Backend) (pd : Option (List Nat))
    (s : OE_RSA_KEY_IMPL) (ok : Bool) :
    ((OE_RSAReadPublicKeyFromPEM B pd (some s) ok).1 = OE_Result.OK ∧
      ∃ k, (OE_RSAReadPublicKeyFromPEM B pd (some s) ok).2 =
        some ⟨OE_RSA_KEY_MAGIC, some k⟩) ∨
    ((OE_RSAReadPublicKeyFromPEM B pd (some s) ok).1 ≠ OE_Result.OK ∧
      (OE_RSAReadPublicKeyFromPEM B pd (some s) ok).2 = some emptyImpl) := by
  cases pd with
  | none => right; simp [OE_RSAReadPublicKeyFromPEM, ClearImpl]
  | some bytes =>
    by_cases hlen : bytes.length = 0
    · right; simp [OE_RSAReadPublicKeyFromPEM, ClearImpl, hlen]
    · by_cases hterm : OE_CheckForNullTerminator bytes = OE_Result.OK
      · cases ok with
        | false =>
          right
          simp [OE_RSAReadPublicKeyFromPEM, ClearImpl, hlen, hterm]
        | true =>
          cases hp : B.readPubEnvelope bytes with
          | none =>
            right
            simp [OE_RSAReadPublicKeyFromPEM, ClearImpl, hlen, hterm, hp]
          | some pkid =>
            cases hq : B.get1RSA pkid with
            | none =>
              right
              simp [OE_RSAReadPublicKeyFromPEM, ClearImpl, hlen, hterm,
                hp, hq]
            | some k =>
              left
              refine ⟨?_, k, ?_⟩ <;>
                simp [OE_RSAReadPublicKeyFromPEM, ClearImpl, hlen, hterm,
                  hp, hq]
      · right; simp [OE_RSAReadPublicKeyFromPEM, ClearImpl, hlen, hterm]

/-- C10: the PEM read operations clear a non-NULL output handle before
any validation, so every non-Ok return (including InvalidParameter)
leaves the handle empty and every Ok return leaves it valid; a NULL key
pointer yields InvalidParameter without any write. -/
theorem read_pem_handle_invariant (B : Backend) (pd : Option (List Nat))
    (s : OE_RSA_KEY_IMPL) (ok : Bool) :
    ((OE_RSAReadPrivateKeyFromPEM B pd none ok).1 =
        OE_Result.INVALID_PARAMETER ∧
      (OE_RSAReadPrivateKeyFromPEM B pd none ok).2 = none) ∧
    (((OE_RSAReadPrivateKeyFromPEM B pd (some s) ok).1 = OE_Result.OK ∧
        ValidImpl (OE_RSAReadPrivateKeyFromPEM B pd (some s) ok).2 =
          true) ∨
      ((OE_RSAReadPrivateKeyFromPEM B pd (some s) ok).1 ≠ OE_Result.OK ∧
        (OE_RSAReadPrivateKeyFromPEM B pd (some s) ok).2 =
          some emptyImpl)) ∧
    ((OE_RSAReadPublicKeyFromPEM B pd none ok).1 =
        OE_Result.INVALID_PARAMETER ∧
      (OE_RSAReadPublicKeyFromPEM B pd none ok).2 = none) ∧
    (((OE_RSAReadPublicKeyFromPEM B pd (some s) ok).1 = OE_Result.OK ∧
        ValidImpl (OE_RSAReadPublicKeyFromPEM B pd (some s) ok).2 =
          true) ∨
      ((OE_RSAReadPublicKeyFromPEM B pd (some s) ok).1 ≠ OE_Result.OK ∧
        (OE_RSAReadPublicKeyFromPEM B pd (some s) ok).2 =
          some emptyImpl)) := by
  refine ⟨?_, ?_, ?_, ?_⟩
  · cases pd <;> simp [OE_RSAReadPrivateKeyFromPEM, ClearImpl]
  · rcases readPriv_handle_state B pd s ok with ⟨h1, k, h2⟩ | ⟨h1, h2⟩
    · left; exact ⟨h1, by rw [h2]; exact validImpl_mk k⟩
    · right; exact ⟨h1, h2⟩
  · cases pd <;> simp [OE_RSAReadPublicKeyFromPEM, ClearImpl]
  · rcases readPub_handle_state B pd s ok with ⟨h1, k, h2⟩ | ⟨h1, h2⟩
    · left; exact ⟨h1, by rw [h2]; exact validImpl_mk k⟩
    · right; exact ⟨h1, h2⟩

/-- Helper: the rollback step does nothing to an already-cleared (or
NULL) handle. -/
theorem freeIfValid_clearImpl (x : Option OE_RSA_KEY_IMPL) :
    freeIfValid (ClearImpl x) = ClearImpl x := by
  cases x with
  | none => simp [freeIfValid, ClearImpl, ValidImpl]
  | some s => simp [freeIfValid, ClearImpl, validImpl_empty]

/-- Helper: the rollback step clears a populated handle. -/
theorem freeIfValid_valid (k : Nat) :
    freeIfValid (some ⟨OE_RSA_KEY_MAGIC, some k⟩) = some emptyImpl := by
  simp [freeIfValid, validImpl_mk, ClearImpl]

/-- Helper: the private read leaves a non-NULL handle either cleared or
populated with the magic. -/
theorem readPriv_state_disj (B : Backend) (pd : Option (List Nat))
    (s : OE_RSA_KEY_IMPL) (ok : Bool) :
    (OE_RSAReadPrivateKeyFromPEM B pd (some s) ok).2 = some emptyImpl ∨
    ∃ k, (OE_RSAReadPrivateKeyFromPEM B pd (some s) ok).2 =
      some ⟨OE_RSA_KEY_MAGIC, some k⟩ := by
  rcases readPriv_handle_state B pd s ok with ⟨_, k, h⟩ | ⟨_, h⟩
  · right; exact ⟨k, h⟩
  · left; exact h

/-- Helper: the public read leaves a non-NULL handle either cleared or
populated with the magic. -/
theorem readPub_state_disj (B : Backend) (pd : Option (List Nat))
    (s : OE_RSA_KEY_IMPL) (ok : Bool) :
    (OE_RSAReadPublicKeyFromPEM B pd (some s) ok).2 = some emptyImpl ∨
    ∃ k, (OE_RSAReadPublicKeyFromPEM B pd (some s) ok).2 =
      some ⟨OE_RSA_KEY_MAGIC, some k⟩ := by
  rcases readPub_handle_state B pd s ok with ⟨_, k, h⟩ | ⟨_, h⟩
  · right; exact ⟨k, h⟩
  · left; exact h

/-- Helper: a handle state that is either cleared or populated is either
the cleared non-NULL input or populated with that input non-NULL. -/
theorem handle_shape_aux (p x : Option OE_RSA_KEY_IMPL)
    (hp : ClearImpl p = some emptyImpl)
    (hx : x = some emptyImpl ∨
      ∃ k, x = some ⟨OE_RSA_KEY_MAGIC, some k⟩) :
    x = ClearImpl p ∨
      (p ≠ none ∧ ∃ k, x = some ⟨OE_RSA_KEY_MAGIC, some k⟩) := by
  have hpn : p ≠ none := by
    intro hn
    subst hn
    simp [ClearImpl] at hp
  rcases hx with hx | hx
  · left; rw [hx, hp]
  · right; exact ⟨hpn, hx⟩

/-- Helper: each output handle of `generateBody` is either the cleared
input or (for a non-NULL input) a populated handle carrying the magic. -/
theorem generateBody_handle_shape (B : Backend) (bits exponent : Nat)
    (p q : Option OE_RSA_KEY_IMPL) (env : GenEnv)
    (r : OE_Result) (p1 q1 : Option OE_RSA_KEY_IMPL)
    (h : generateBody B bits exponent p q env = (r, p1, q1)) :
    (p1 = ClearImpl p ∨
      (p ≠ none ∧ ∃ k, p1 = some ⟨OE_RSA_KEY_MAGIC, some k⟩)) ∧
    (q1 = ClearImpl q ∨
      (q ≠ none ∧ ∃ k, q1 = some ⟨OE_RSA_KEY_MAGIC, some k⟩)) := by
  unfold generateBody at h
  by_cases hc1 : ClearImpl p = none ∨ ClearImpl q = none
  · rw [if_pos hc1] at h
    injection h with h1 h23
    injection h23 with h2 h3
    subst h2; subst h3
    exact ⟨Or.inl rfl, Or.inl rfl⟩
  · have hp' : ClearImpl p = some emptyImpl := by
      cases p with
      | none => exact absurd (Or.inl rfl) hc1
      | some sp => rfl
    have hq' : ClearImpl q = some emptyImpl := by
      cases q with
      | none => exact absurd (Or.inr rfl) hc1
      | some sq => rfl
    rw [if_neg hc1] at h
    by_cases hc2 : bits > INT_MAX
    · rw [if_pos hc2] at h
      injection h with h1 h23
      injection h23 with h2 h3
      subst h2; subst h3
      exact ⟨Or.inl rfl, Or.inl rfl⟩
    · rw [if_neg hc2] at h
      by_cases hc3 : exponent > ULONG_MAX
      · rw [if_pos hc3] at h
        injection h with h1 h23
        injection h23 with h2 h3
        subst h2; subst h3
        exact ⟨Or.inl rfl, Or.inl rfl⟩
      · rw [if_neg hc3] at h
        cases hgen : B.generate bits exponent with
        | none =>
          rw [hgen] at h
          injection h with h1 h23
          injection h23 with h2 h3
          subst h2; subst h3
          exact ⟨Or.inl rfl, Or.inl rfl⟩
        | some rsa =>
          rw [hgen] at h
          dsimp only at h
          by_cases hc4 : env.bioNew1Ok = false
          · rw [if_pos hc4] at h
            injection h with h1 h23
            injection h23 with h2 h3
            subst h2; subst h3
            exact ⟨Or.inl rfl, Or.inl rfl⟩
          · rw [if_neg hc4] at h
            cases hw : B.writePriv rsa with
            | none =>
              rw [hw] at h
              injection h with h1 h23
              injection h23 with h2 h3
              subst h2; subst h3
              exact ⟨Or.inl rfl, Or.inl rfl⟩
            | some pem1 =>
              rw [hw] at h
              dsimp only at h
              by_cases hc5 : env.bioWrite1Ok = false
              · rw [if_pos hc5] at h
                injection h with h1 h23
                injection h23 with h2 h3
                subst h2; subst h3
                exact ⟨Or.inl rfl, Or.inl rfl⟩
              · rw [if_neg hc5] at h
                by_cases hc6 : env.getMem1Ok = false
                · rw [if_pos hc6] at h
                  injection h with h1 h23
                  injection h23 with h2 h3
                  subst h2; subst h3
                  exact ⟨Or.inl rfl, Or.inl rfl⟩
                · rw [if_neg hc6] at h
                  have hrp := handle_shape_aux p
                    (OE_RSAReadPrivateKeyFromPEM B (some (pem1 ++ [0]))
                      (ClearImpl p) env.readBio1Ok).2 hp'
                    (by rw [hp']
                        exact readPriv_state_disj B _ emptyImpl _)
                  by_cases hc7 : (OE_RSAReadPrivateKeyFromPEM B
                      (some (pem1 ++ [0])) (ClearImpl p)
                      env.readBio1Ok).1 ≠ OE_Result.OK
                  · rw [if_pos hc7] at h
                    injection h with h1 h23
                    injection h23 with h2 h3
                    subst h2; subst h3
                    exact ⟨hrp, Or.inl rfl⟩
                  · rw [if_neg hc7] at h
                    by_cases hc8 : env.bioNew2Ok = false
                    · rw [if_pos hc8] at h
                      injection h with h1 h23
                      injection h23 with h2 h3
                      subst h2; subst h3
                      exact ⟨hrp, Or.inl rfl⟩
                    · rw [if_neg hc8] at h
                      by_cases hc9 : env.pkeyNewOk = false
                      · rw [if_pos hc9] at h
                        injection h with h1 h23
                        injection h23 with h2 h3
                        subst h2; subst h3
                        exact ⟨hrp, Or.inl rfl⟩
                      · rw [if_neg hc9] at h
                        by_cases hc10 : env.assignOk = false
                        · rw [if_pos hc10] at h
                          injection h with h1 h23
                          injection h23 with h2 h3
                          subst h2; subst h3
                          exact ⟨hrp, Or.inl rfl⟩
                        · rw [if_neg hc10] at h
                          cases hw2 : B.writePubOf rsa with
                          | none =>
                            rw [hw2] at h
                            injection h with h1 h23
                            injection h23 with h2 h3
                            subst h2; subst h3
                            exact ⟨hrp, Or.inl rfl⟩
                          | some pem2 =>
                            rw [hw2] at h
                            dsimp only at h
                            have hrq := handle_shape_aux q
                              (OE_RSAReadPublicKeyFromPEM B
                                (some (pem2 ++ [0])) (ClearImpl q)
                                env.readBio2Ok).2 hq'
                              (by rw [hq']
                                  exact readPub_state_disj B _
                                    emptyImpl _)
                            by_cases hc11 : env.bioWrite2Ok = false
                            · rw [if_pos hc11] at h
                              injection h with h1 h23
                              injection h23 with h2 h3
                              subst h2; subst h3
                              exact ⟨hrp, Or.inl rfl⟩
                            · rw [if_neg hc11] at h
                              by_cases hc12 : (OE_RSAReadPublicKeyFromPEM
                                  B (some (pem2 ++ [0])) (ClearImpl q)
                                  env.readBio2Ok).1 ≠ OE_Result.OK
                              · rw [if_pos hc12] at h
                                injection h with h1 h23
                                injection h23 with h2 h3
                                subst h2; subst h3
                                exact ⟨hrp, hrq⟩
                              · rw [if_neg hc12] at h
                                injection h with h1 h23
                                injection h23 with h2 h3
                                subst h2; subst h3
                                exact ⟨hrp, hrq⟩

/-- Helper: clearing any non-NULL handle yields the empty state. -/
theorem clearImpl_of_ne_none {p : Option OE_RSA_KEY_IMPL}
    (hp : p ≠ none) : ClearImpl p = some emptyImpl := by
  cases p with
  | none => exact absurd rfl hp
  | some s => rfl

/-- C4: `OE_RSAGenerate` clears both output handles up front,
unconditionally before validation, and on every non-Ok result both final
handle states equal the cleared inputs (a NULL pointer stays NULL, a
non-NULL handle is empty), so a partially populated key pair is never
observable by the caller. -/
theorem generate_failure_leaves_empty (B : Backend) (bits exponent : Nat)
    (p q : Option OE_RSA_KEY_IMPL) (env : GenEnv)
    (h : (OE_RSAGenerate B bits exponent p q env).1 ≠ OE_Result.OK) :
    (OE_RSAGenerate B bits exponent p q env).2.1 = ClearImpl p ∧
    (OE_RSAGenerate B bits exponent p q env).2.2 = ClearImpl q := by
  obtain ⟨⟨r, p1, q1⟩, hbody⟩ :
      ∃ t, generateBody B bits exponent p q env = t := ⟨_, rfl⟩
  have hshape := generateBody_handle_shape B bits exponent p q env
    r p1 q1 hbody
  have hG : OE_RSAGenerate B bits exponent p q env =
      if r = OE_Result.OK then (r, p1, q1)
      else (r, freeIfValid p1, freeIfValid q1) := by
    unfold OE_RSAGenerate
    rw [hbody]
  by_cases hr : r = OE_Result.OK
  · rw [hG, if_pos hr] at h
    exact absurd hr h
  · rw [hG, if_neg hr]
    constructor
    · rcases hshape.1 with h1 | ⟨hpn, k, h1⟩
      · rw [h1, freeIfValid_clearImpl]
      · rw [h1, freeIfValid_valid, clearImpl_of_ne_none hpn]
    · rcases hshape.2 with h1 | ⟨hpn, k, h1⟩
      · rw [h1, freeIfValid_clearImpl]
      · rw [h1, freeIfValid_valid, clearImpl_of_ne_none hpn]

/-- Witness for C4: a backend whose public-key serialization fails forces
`OE_RSAGenerate` to fail after the private handle was populated, and both
output handles end empty. -/
theorem generate_failure_leaves_empty_witness :
    (OE_RSAGenerate failPubWriteBackend 2048 3 (some emptyImpl)
      (some emptyImpl) allOkEnv).1 ≠ OE_Result.OK ∧
    (OE_RSAGenerate failPubWriteBackend 2048 3 (some emptyImpl)
      (some emptyImpl) allOkEnv).2.1 = some emptyImpl ∧
    (OE_RSAGenerate failPubWriteBackend 2048 3 (some emptyImpl)
      (some emptyImpl) allOkEnv).2.2 = some emptyImpl := by
  have h := generate_failure_leaves_empty failPubWriteBackend 2048 3
    (some emptyImpl) (some emptyImpl) allOkEnv (by decide)
  exact ⟨by decide, h.1, h.2⟩

/-- Helper: a private read that returned OK parsed its buffer through the
backend and populated the handle with the parsed key. -/
theorem readPriv_ok_parts (B : Backend) (pd : Option (List Nat))
    (key : Option OE_RSA_KEY_IMPL) (ok : Bool)
    (h : (OE_RSAReadPrivateKeyFromPEM B pd key ok).1 = OE_Result.OK) :
    ∃ bytes k, pd = some bytes ∧ B.readPriv bytes = some k ∧
      (OE_RSAReadPrivateKeyFromPEM B pd key ok).2 =
        some ⟨OE_RSA_KEY_MAGIC, some k⟩ := by
  cases pd with
  | none => simp [OE_RSAReadPrivateKeyFromPEM] at h
  | some bytes =>
    cases key with
    | none => simp [OE_RSAReadPrivateKeyFromPEM, ClearImpl] at h
    | some s =>
      by_cases hlen : bytes.length = 0
      · simp [OE_RSAReadPrivateKeyFromPEM, ClearImpl, hlen] at h
      · by_cases hterm : OE_CheckForNullTerminator bytes = OE_Result.OK
        · cases ok with
          | false =>
            simp [OE_RSAReadPrivateKeyFromPEM, ClearImpl, hlen,
              hterm] at h
          | true =>
            cases hp : B.readPriv bytes with
            | none =>
              simp [OE_RSAReadPrivateKeyFromPEM, ClearImpl, hlen,
                hterm, hp] at h
            | some k =>
              exact ⟨bytes, k, rfl, hp, by
                simp [OE_RSAReadPrivateKeyFromPEM, ClearImpl, hlen,
                  hterm, hp]⟩
        · simp [OE_RSAReadPrivateKeyFromPEM, ClearImpl, hlen, hterm] at h

/-- Helper: a public read that returned OK parsed the envelope, extracted
the RSA key and populated the handle with it. -/
theorem readPub_ok_parts (B : Backend) (pd : Option (List Nat))
    (key : Option OE_RSA_KEY_IMPL) (ok : Bool)
    (h : (OE_RSAReadPublicKeyFromPEM B pd key ok).1 = OE_Result.OK) :
    ∃ bytes pkid k, pd = some bytes ∧
      B.readPubEnvelope bytes = some pkid ∧ B.get1RSA pkid = some k ∧
      (OE_RSAReadPublicKeyFromPEM B pd key ok).2 =
        some ⟨OE_RSA_KEY_MAGIC, some k⟩ := by
  cases pd with
  | none => simp [OE_RSAReadPublicKeyFromPEM] at h
  | some bytes =>
    cases key with
    | none => simp [OE_RSAReadPublicKeyFromPEM, ClearImpl] at h
    | some s =>
      by_cases hlen : bytes.length = 0
      · simp [OE_RSAReadPublicKeyFromPEM, ClearImpl, hlen] at h
      · by_cases hterm : OE_CheckForNullTerminator bytes = OE_Result.OK
        · cases ok with
          | false =>
            simp [OE_RSAReadPublicKeyFromPEM, ClearImpl, hlen,
              hterm] at h
          | true =>
            cases hp : B.readPubEnvelope bytes with
            | none =>
              simp [OE_RSAReadPublicKeyFromPEM, ClearImpl, hlen,
                hterm, hp] at h
            | some pkid =>
              cases hq : B.get1RSA pkid with
              | none =>
                simp [OE_RSAReadPublicKeyFromPEM, ClearImpl, hlen,
                  hterm, hp, hq] at h
              | some k =>
                exact ⟨bytes, pkid, k, rfl, hp, hq, by
                  simp [OE_RSAReadPublicKeyFromPEM, ClearImpl, hlen,
                    hterm, hp, hq]⟩
        · simp [OE_RSAReadPublicKeyFromPEM, ClearImpl, hlen, hterm] at h

/-- Helper: a private-key serialization that returned OK produced the
backend PEM text and copied it, terminator included, to the caller. -/
theorem writePriv_ok_parts (B : Backend) (key : Option OE_RSA_KEY_IMPL)
    (dn : Bool) (size : Option Nat) (b1 b2 b3 : Bool)
    (h : (OE_RSAWritePrivateKeyToPEM B key dn size b1 b2 b3).1 =
      OE_Result.OK) :
    ∃ pem, B.writePriv ((key.bind (fun s => s.rsa)).getD 0) = some pem ∧
      (OE_RSAWritePrivateKeyToPEM B key dn size b1 b2 b3).2.2 =
        some (pem ++ [0]) := by
  cases size with
  | none => simp [OE_RSAWritePrivateKeyToPEM] at h
  | some cap =>
    by_cases hv : ValidImpl key = false
    · simp [OE_RSAWritePrivateKeyToPEM, hv] at h
    · by_cases hdn : dn = true ∧ cap ≠ 0
      · simp [OE_RSAWritePrivateKeyToPEM, hv, hdn] at h
      · cases b1 with
        | false => simp [OE_RSAWritePrivateKeyToPEM, hv, hdn] at h
        | true =>
          cases hp : B.writePriv ((key.bind (fun s => s.rsa)).getD 0) with
          | none =>
            simp [OE_RSAWritePrivateKeyToPEM, hv, hdn, hp] at h
          | some pem =>
            cases b2 with
            | false =>
              simp [OE_RSAWritePrivateKeyToPEM, hv, hdn, hp] at h
            | true =>
              cases b3 with
              | false =>
                simp [OE_RSAWritePrivateKeyToPEM, hv, hdn, hp] at h
              | true =>
                by_cases hcap : cap < pem.length + 1
                · simp [OE_RSAWritePrivateKeyToPEM, hv, hdn, hp,
                    hcap] at h
                · exact ⟨pem, rfl, by
                    simp [OE_RSAWritePrivateKeyToPEM, hv, hdn, hp, hcap]⟩

/-- Helper: a sign that returned OK had valid arguments and wrote a
backend signature of exactly the modulus size. -/
theorem sign_ok_parts (B : Backend) (pkh : Option OE_RSA_KEY_IMPL)
    (ht : OE_HashType) (hd : Option (List Nat)) (sn : Bool)
    (ss : Option Nat)
    (h : (OE_RSASign B pkh ht hd sn ss).1 = OE_Result.OK) :
    ∃ hashBytes sigB, hd = some hashBytes ∧ hashBytes.length ≠ 0 ∧
      B.sign (MapHashType ht) ((pkh.bind (fun s => s.rsa)).getD 0)
        hashBytes = some sigB ∧
      sigB.length = B.size ((pkh.bind (fun s => s.rsa)).getD 0) ∧
      (OE_RSASign B pkh ht hd sn ss).2.2 = some sigB := by
  cases hd with
  | none => simp [OE_RSASign] at h
  | some hashBytes =>
    cases ss with
    | none => simp [OE_RSASign] at h
    | some cap =>
      by_cases hval : ValidImpl pkh = false ∨ hashBytes = []
      · simp [OE_RSASign, hval] at h
      · have hval' := hval
        push_neg at hval'
        by_cases hsn : sn = true ∧ cap ≠ 0
        · simp [OE_RSASign, hval, hsn] at h
        · by_cases hcap : cap <
              B.size ((pkh.bind (fun s => s.rsa)).getD 0)
          · simp [OE_RSASign, hval, hsn, hcap] at h
          · cases hsg : B.sign (MapHashType ht)
                ((pkh.bind (fun s => s.rsa)).getD 0) hashBytes with
            | none => simp [OE_RSASign, hval, hsn, hcap, hsg] at h
            | some sigB =>
              by_cases hEq : sigB.length =
                  B.size ((pkh.bind (fun s => s.rsa)).getD 0)
              · refine ⟨hashBytes, sigB, rfl, ?_, ?_, hEq, by
                  simp [OE_RSASign, hval, hsn, hcap, hsg, hEq]⟩
                · simpa using hval'.2
                · exact hsg
              · simp [OE_RSASign, hval, hsn, hcap, hsg, hEq] at h

/-- Helper: a Generate that returned OK took the success branch and
coincides with its body, whose result is OK. -/
theorem generate_eq_body_of_ok (B : Backend) (bits exponent : Nat)
    (p q : Option OE_RSA_KEY_IMPL) (env : GenEnv)
    (h : (OE_RSAGenerate B bits exponent p q env).1 = OE_Result.OK) :
    OE_RSAGenerate B bits exponent p q env =
      generateBody B bits exponent p q env ∧
    (generateBody B bits exponent p q env).1 = OE_Result.OK := by
  obtain ⟨⟨r, p1, q1⟩, hbody⟩ :
      ∃ t, generateBody B bits exponent p q env = t := ⟨_, rfl⟩
  have hG : OE_RSAGenerate B bits exponent p q env =
      if r = OE_Result.OK then (r, p1, q1)
      else (r, freeIfValid p1, freeIfValid q1) := by
    unfold OE_RSAGenerate
    rw [hbody]
  by_cases hr : r = OE_Result.OK
  · constructor
    · rw [hG, if_pos hr, hbody]
    · rw [hbody]
      exact hr
  · exfalso
    rw [hG, if_neg hr] at h
    exact hr h

/-- Helper: an OK body of Generate pins down the backend interactions:
one generated key, a private PEM round-trip and a public PEM round-trip,
with both outputs populated from the re-parsed keys. -/
theorem generateBody_ok_inv (B : Backend) (bits exponent : Nat)
    (p q : Option OE_RSA_KEY_IMPL) (env : GenEnv)
    (h : (generateBody B bits exponent p q env).1 = OE_Result.OK) :
    ∃ k0 pem1 kp pem2 pkid kq,
      B.generate bits exponent = some k0 ∧
      B.writePriv k0 = some pem1 ∧
      B.readPriv (pem1 ++ [0]) = some kp ∧
      B.writePubOf k0 = some pem2 ∧
      B.readPubEnvelope (pem2 ++ [0]) = some pkid ∧
      B.get1RSA pkid = some kq ∧
      (generateBody B bits exponent p q env).2.1 =
        some ⟨OE_RSA_KEY_MAGIC, some kp⟩ ∧
      (generateBody B bits exponent p q env).2.2 =
        some ⟨OE_RSA_KEY_MAGIC, some kq⟩ := by
  unfold generateBody at h ⊢
  by_cases hc1 : ClearImpl p = none ∨ ClearImpl q = none
  · rw [if_pos hc1] at h
    simp at h
  · rw [if_neg hc1] at h ⊢
    by_cases hc2 : bits > INT_MAX
    · rw [if_pos hc2] at h
      simp at h
    · rw [if_neg hc2] at h ⊢
      by_cases hc3 : exponent > ULONG_MAX
      · rw [if_pos hc3] at h
        simp at h
      · rw [if_neg hc3] at h ⊢
        cases hgen : B.generate bits exponent with
        | none => simp [hgen] at h
        | some rsa =>
          rw [hgen] at h
          dsimp only at h ⊢
          by_cases hc4 : env.bioNew1Ok = false
          · rw [if_pos hc4] at h
            simp at h
          · rw [if_neg hc4] at h ⊢
            cases hwp : B.writePriv rsa with
            | none => simp [hwp] at h
            | some pem1 =>
              rw [hwp] at h
              dsimp only at h ⊢
              by_cases hc5 : env.bioWrite1Ok = false
              · rw [if_pos hc5] at h
                simp at h
              · rw [if_neg hc5] at h ⊢
                by_cases hc6 : env.getMem1Ok = false
                · rw [if_pos hc6] at h
                  simp at h
                · rw [if_neg hc6] at h ⊢
                  by_cases hc7 : (OE_RSAReadPrivateKeyFromPEM B
                      (some (pem1 ++ [0])) (ClearImpl p)
                      env.readBio1Ok).1 ≠ OE_Result.OK
                  · rw [if_pos hc7] at h
                    simp at h
                  · rw [if_neg hc7] at h ⊢
                    obtain ⟨bytes1, kp, hb1, hkp, hout1⟩ :=
                      readPriv_ok_parts B (some (pem1 ++ [0]))
                        (ClearImpl p) env.readBio1Ok (not_not.mp hc7)
                    injection hb1 with hb1'
                    subst hb1'
                    by_cases hc8 : env.bioNew2Ok = false
                    · rw [if_pos hc8] at h
                      simp at h
                    · rw [if_neg hc8] at h ⊢
                      by_cases hc9 : env.pkeyNewOk = false
                      · rw [if_pos hc9] at h
                        simp at h
                      · rw [if_neg hc9] at h ⊢
                        by_cases hc10 : env.assignOk = false
                        · rw [if_pos hc10] at h
                          simp at h
                        · rw [if_neg hc10] at h ⊢
                          cases hwq : B.writePubOf rsa with
                          | none => simp [hwq] at h
                          | some pem2 =>
                            rw [hwq] at h
                            dsimp only at h ⊢
                            by_cases hc11 : env.bioWrite2Ok = false
                            · rw [if_pos hc11] at h
                              simp at h
                            · rw [if_neg hc11] at h ⊢
                              by_cases hc12 :
                                  (OE_RSAReadPublicKeyFromPEM B
                                    (some (pem2 ++ [0])) (ClearImpl q)
                                    env.readBio2Ok).1 ≠ OE_Result.OK
                              · rw [if_pos hc12] at h
                                simp at h
                              · rw [if_neg hc12] at h ⊢
                                obtain ⟨bytes2, pkid, kq, hb2, hpk,
                                    hkq, hout2⟩ :=
                                  readPub_ok_parts B (some (pem2 ++ [0]))
                                    (ClearImpl q) env.readBio2Ok
                                    (not_not.mp hc12)
                                injection hb2 with hb2'
                                subst hb2'
                                exact ⟨rsa, pem1, kp, pem2, pkid, kq,
                                  rfl, hwp, hkp, hwq, hpk, hkq,
                                  hout1, hout2⟩

/-- C2: for a key pair produced by a successful `OE_RSAGenerate`,
serializing the private key with `OE_RSAWritePrivateKeyToPEM`, re-reading
it with `OE_RSAReadPrivateKeyFromPEM`, and signing a digest with
`OE_RSASign` yields a signature accepted by `OE_RSAVerify` under the
public key of the same Generate call — given that backend PEM round-trips
preserve the key material, backend signatures verify, and modulus sizes
are positive. -/
theorem generate_write_read_sign_verify_roundtrip (B : Backend)
    (bits exponent cap1 cap2 : Nat) (env : GenEnv) (ht : OE_HashType)
    (digest outBytes sigBytes : List Nat)
    (p q r : Option OE_RSA_KEY_IMPL)
    (privOut pubOut privAgain : OE_RSA_KEY_IMPL)
    (sz1 sz2 : Option Nat) (dn sn : Bool)
    (Hsz : ∀ k, 0 < B.size k)
    (Hwp : ∀ k pem, B.writePriv k = some pem →
      B.readPriv (pem ++ [0]) = some k)
    (Hwpub : ∀ k pem, B.writePubOf k = some pem →
      ∀ pkid, B.readPubEnvelope (pem ++ [0]) = some pkid →
        B.get1RSA pkid = some k)
    (Hsv : ∀ nid k d s, B.sign nid k d = some s →
      B.verify nid k d s = true)
    (hgen : OE_RSAGenerate B bits exponent p q env =
      (OE_Result.OK, some privOut, some pubOut))
    (hw : OE_RSAWritePrivateKeyToPEM B (some privOut) dn (some cap1)
      true true true = (OE_Result.OK, sz1, some outBytes))
    (hr : OE_RSAReadPrivateKeyFromPEM B (some outBytes) r true =
      (OE_Result.OK, some privAgain))
    (hs : OE_RSASign B (some privAgain) ht (some digest) sn (some cap2) =
      (OE_Result.OK, sz2, some sigBytes)) :
    OE_RSAVerify B (some pubOut) ht (some digest) (some sigBytes) =
      OE_Result.OK := by
  obtain ⟨hGeq, hb1⟩ := generate_eq_body_of_ok B bits exponent p q env
    (by rw [hgen])
  obtain ⟨k0, pem1, kp, pem2, pkid, kq, hg1, hg2, hg3, hg4, hg5, hg6,
    ho1, ho2⟩ := generateBody_ok_inv B bits exponent p q env hb1
  rw [← hGeq, hgen] at ho1 ho2
  injection ho1 with ho1'
  injection ho2 with ho2'
  subst ho1'
  subst ho2'
  have hkpk0 : kp = k0 := by
    have h1 := Hwp k0 pem1 hg2
    rw [hg3] at h1
    exact Option.some.inj h1
  rw [hkpk0] at hw
  have hkqk0 : kq = k0 := by
    have h1 := Hwpub k0 pem2 hg4 pkid hg5
    rw [hg6] at h1
    exact Option.some.inj h1
  rw [hkqk0]
  obtain ⟨pemw, hpw, hpout⟩ := writePriv_ok_parts B
    (some ⟨OE_RSA_KEY_MAGIC, some k0⟩) dn (some cap1) true true true
    (by rw [hw])
  simp only [Option.some_bind, Option.getD_some] at hpw
  rw [hw] at hpout
  injection hpout with hpout'
  subst hpout'
  obtain ⟨bytes2, k2, hb2, hk2, hout2⟩ := readPriv_ok_parts B
    (some (pemw ++ [0])) r true (by rw [hr])
  injection hb2 with hb2'
  subst hb2'
  have hk2k0 : k2 = k0 := by
    have h1 := Hwp k0 pemw hpw
    rw [hk2] at h1
    exact Option.some.inj h1
  rw [hk2k0] at hout2
  rw [hr] at hout2
  injection hout2 with hout2'
  subst hout2'
  obtain ⟨hashBytes, sigB, hhb, hhne, hsg, hsl, hsout⟩ := sign_ok_parts
    B (some ⟨OE_RSA_KEY_MAGIC, some k0⟩) ht (some digest) sn (some cap2)
    (by rw [hs])
  injection hhb with hhb'
  subst hhb'
  simp only [Option.some_bind, Option.getD_some] at hsg hsl
  rw [hs] at hsout
  injection hsout with hsout'
  subst hsout'
  have hver := Hsv (MapHashType ht) k0 digest sigBytes hsg
  have hlen0 : sigBytes.length ≠ 0 := by
    rw [hsl]
    have := Hsz k0
    omega
  simp [OE_RSAVerify, validImpl_mk, hhne, hlen0, hver]

/-- Witness for C2 at the toy backend: the full pipeline on concrete
runs, with every backend hypothesis discharged. -/
theorem generate_write_read_sign_verify_roundtrip_witness :
    OE_RSAVerify toyBackend (some ⟨OE_RSA_KEY_MAGIC, some 5⟩)
      OE_HashType.SHA256 (some [9]) (some [1, 1, 1, 1]) =
      OE_Result.OK := by
  exact generate_write_read_sign_verify_roundtrip toyBackend 2048 3 2 4
    allOkEnv OE_HashType.SHA256 [9] [6, 0] [1, 1, 1, 1]
    (some emptyImpl) (some emptyImpl) (some emptyImpl)
    ⟨OE_RSA_KEY_MAGIC, some 5⟩ ⟨OE_RSA_KEY_MAGIC, some 5⟩
    ⟨OE_RSA_KEY_MAGIC, some 5⟩ (some 2) (some 4) false false
    (fun _ => by simp [toyBackend])
    (by intro k pem h
        simp [toyBackend] at h
        subst h
        simp [toyBackend, toyReadPriv])
    (by intro k pem h pkid h2
        simp [toyBackend] at h
        subst h
        simp [toyBackend, toyReadPub] at h2
        subst h2
        simp [toyBackend])
    (by intro nid k d s h
        simp [toyBackend] at h
        subst h
        simp [toyBackend])
    (by decide) (by decide) (by decide) (by decide)
